import Mathlib

/-!
Verification of the discussion ban/mute scope-resolution and audit-trail
subsystem of the edx/forum repository.

The definitions below are a shallow embedding of:
- `forum/backends/mysql/models.py` (`DiscussionBan`, `DiscussionBanException`,
  `ModerationAuditLog` and the class method `DiscussionBan.is_user_banned`),
- `forum/api/bans.py` (`ban_user`, `unban_user`, `get_banned_users`,
  `get_user_ban_scope`, `get_banned_usernames`),
- `forum/backends/mongodb/bans.py` (`DiscussionBans.is_user_banned`,
  `DiscussionBans.get_active_ban`, `DiscussionBanExceptions.has_exception`),
- `forum/views/bans.py` (`UnbanUserAPIView.post` error-to-status mapping),
- `forum/ai_moderation.py` (`create_moderation_audit_log`),
- `forum/admin.py` (`ModerationAuditLogAdmin` permission surface).

Modelling conventions:
- Django ORM tables become Lean lists of records inside a `DBState`;
  `objects.filter(...).first()` becomes `List.find?`, `.exists()` becomes
  `List.any`, `.get`/`get_or_create` become a `match` on `List.filter`
  (raising `MultipleObjectsReturned` when more than one row matches, as the
  ORM does).
- Python exceptions become `Except` errors carrying the message string;
  a Django `transaction.atomic()` block that raises is modelled by returning
  the original state of the caller together with the error (rollback).
- Course keys are kept in canonical string form ("course-v1:ORG+COURSE+RUN"
  or the old-style "ORG/COURSE/RUN"); `str(CourseKey.from_string(s)) = s`
  for canonical strings.
- Python truthiness of an optional string argument (`if course_id:`)
  is modelled by `truthy`, of an optional integer (`if ban_id:`) by
  `truthyNat`.
- Timestamps are naturals; users are identified by numeric ids (usernames
  are in bijection with ids and are elided from records).
- JSON/float-valued audit payload fields (`classifier_output`,
  `confidence_score`, `override_reason`) play no role in any claim and are
  elided from the audit record.
-/

namespace ForumBans

abbrev UserId := Nat

/-- From the source: `DiscussionBan.SCOPE_COURSE` / `SCOPE_ORGANIZATION` from
`forum/backends/mysql/models.py`. -/
inductive Scope
  | course
  | organization
deriving DecidableEq, Repr

/-- The string stored in the `scope` CharField for each scope value. -/
def Scope.str : Scope → String
  | .course => "course"
  | .organization => "organization"

/-- Python truthiness of an optional string (`None` and `""` are falsy). -/
def truthy : Option String → Bool
  | none => false
  | some s => s != ""

/-- Python truthiness of an optional integer (`None` and `0` are falsy). -/
def truthyNat : Option Nat → Bool
  | none => false
  | some n => n != 0

/-- One row of the `discussion_user_ban` table
(`DiscussionBan` in `forum/backends/mysql/models.py`). -/
structure DiscussionBan where
  id : Nat
  user : UserId
  course_id : Option String
  org_key : Option String
  scope : Scope
  is_active : Bool
  banned_by : Option UserId
  reason : String
  banned_at : Nat
  unbanned_at : Option Nat
  unbanned_by : Option UserId
deriving DecidableEq, Repr

/-- One row of the `discussion_ban_exception` table
(`DiscussionBanException` in `forum/backends/mysql/models.py`). -/
structure DiscussionBanException where
  id : Nat
  ban_id : Nat
  course_id : String
  unbanned_by : Option UserId
  reason : String
deriving DecidableEq, Repr

/-- The `metadata` JSON blob written by the ban API audit calls;
only the keys actually written by `forum/api/bans.py` are modelled. -/
structure AuditMetadata where
  ban_id : Option Nat := none
  created : Option Bool := none
  exception_id : Option Nat := none
  exception_created : Option Bool := none
  org_key : Option String := none
deriving DecidableEq, Repr

/-- One row of the `ModerationAuditLog` table
(`forum/backends/mysql/models.py`).  Field defaults mirror the model:
`action_type` defaults to `ACTION_NO_ACTION`, `source` to `SOURCE_AI`. -/
structure ModerationAuditLog where
  action_type : String := "no_action"
  source : String := "ai"
  timestamp : Nat := 0
  target_user : Option UserId := none
  body : String := ""
  original_author : Option UserId := none
  moderator : Option UserId := none
  course_id : Option String := none
  scope : Option String := none
  reason : String := ""
  classification : String := ""
  actions_taken : List String := []
  reasoning : String := ""
  moderator_override : Bool := false
  metadata : AuditMetadata := {}
deriving DecidableEq, Repr

/-- From the source: `ModerationAuditLog.ACTION_BAN`. -/
def ACTION_BAN : String := "ban_user"
/-- From the source: `ModerationAuditLog.ACTION_BAN_REACTIVATE` (defined by the model;
see whether any operation ever writes it). -/
def ACTION_BAN_REACTIVATE : String := "ban_reactivate"
/-- From the source: `ModerationAuditLog.ACTION_UNBAN`. -/
def ACTION_UNBAN : String := "unban_user"
/-- From the source: `ModerationAuditLog.ACTION_BAN_EXCEPTION`. -/
def ACTION_BAN_EXCEPTION : String := "ban_exception"
/-- From the source: `ModerationAuditLog.SOURCE_HUMAN`. -/
def SOURCE_HUMAN : String := "human"
/-- From the source: `ModerationAuditLog.SOURCE_AI`. -/
def SOURCE_AI : String := "ai"

/-- The persistent store: the three tables touched by the ban subsystem,
plus the auto-increment counters for the two tables the API inserts into. -/
structure DBState where
  bans : List DiscussionBan := []
  exceptions : List DiscussionBanException := []
  audit : List ModerationAuditLog := []
  next_ban_id : Nat := 1
  next_exc_id : Nat := 1
deriving DecidableEq, Repr

/-- Splitting a character list at every occurrence of a separator
(the behavior of Python `str.split(sep)` for a one-character separator,
over the character level; always returns at least one piece). -/
def splitOnCharList (sep : Char) : List Char → List Char → List (List Char)
  | [], acc => [acc.reverse]
  | c :: rest, acc =>
    if c == sep then acc.reverse :: splitOnCharList sep rest []
    else splitOnCharList sep rest (c :: acc)

/-- Modelled from the spec: the external course-key parser
(`opaque_keys.edx.keys.CourseKey`, not part of this repository).  The spec
describes the fallback as "parsing the organization segment out of the
course identifier string"; canonical new-style keys are
"course-v1:ORG+COURSE+RUN" and old-style keys are "ORG/COURSE/RUN", each
with non-empty segments.  Returns the `org` attribute of the parsed key,
or `none` when `CourseKey.from_string` would raise `InvalidKeyError`.
String operations are carried out on the character lists so that they
compute by structural recursion. -/
def courseKeyOrg (cid : String) : Option String :=
  if "course-v1:".data.isPrefixOf cid.data then
    match splitOnCharList '+' (cid.data.drop 10) [] with
    | [org, course, run] =>
      if org.isEmpty || course.isEmpty || run.isEmpty then none else some ⟨org⟩
    | _ => none
  else
    match splitOnCharList '/' cid.data [] with
    | [org, course, run] =>
      if org.isEmpty || course.isEmpty || run.isEmpty then none else some ⟨org⟩
    | _ => none

/-- The ORM filter used by both `DiscussionBan.is_user_banned` and
`get_user_ban_scope` to look up an active organization-scope ban:
`filter(user=user, org_key=org_name, scope=SCOPE_ORGANIZATION, is_active=True)`. -/
def activeOrgBanPred (user : UserId) (org : String) (b : DiscussionBan) : Bool :=
  b.user == user && b.org_key == some org && b.scope == Scope.organization && b.is_active

/-- The ORM filter for an active course-scope ban:
`filter(user=user, course_id=course_id, scope=SCOPE_COURSE, is_active=True)`. -/
def activeCourseBanPred (user : UserId) (cid : String) (b : DiscussionBan) : Bool :=
  b.user == user && b.course_id == some cid && b.scope == Scope.course && b.is_active

/-- From the source: `DiscussionBanException.objects.filter(ban=org_ban, course_id=course_id).exists()`. -/
def hasExceptionFor (s : DBState) (ban_id : Nat) (cid : String) : Bool :=
  s.exceptions.any (fun e => e.ban_id == ban_id && e.course_id == cid)

/-- From the source: `DiscussionBan.is_user_banned` (class method,
`forum/backends/mysql/models.py` lines 1158-1226), on the fallback path
where the organization name comes from the parsed course key
(`org_name = course_id.org`).  Returns `none` when `CourseKey.from_string`
raises on the course id.  When an active org-scope ban is found and an
exception exists for this course, the method returns `False` immediately;
it does not go on to the course-level check. -/
def DiscussionBan_is_user_banned (s : DBState) (user : UserId) (course_id : String)
    (check_org : Bool) : Option Bool :=
  match courseKeyOrg course_id with
  | none => none
  | some org_name =>
    some (
      if check_org then
        match s.bans.find? (activeOrgBanPred user org_name) with
        | some org_ban =>
          if hasExceptionFor s org_ban.id course_id then
            false
          else
            true
        | none => s.bans.any (activeCourseBanPred user course_id)
      else
        s.bans.any (activeCourseBanPred user course_id))

/-- From the source: `get_user_ban_scope` (`forum/api/bans.py` lines 503-563), on the same
fallback path (`org_name = course_id.org`).  Unlike
`DiscussionBan_is_user_banned`, when an exception suppresses the org ban
this function falls through to the course-level check and can report
`"course"`. -/
def get_user_ban_scope (s : DBState) (user : UserId) (course_id : String) :
    Option (Option String) :=
  match courseKeyOrg course_id with
  | none => none
  | some org_name =>
    some (
      match s.bans.find? (activeOrgBanPred user org_name) with
      | some org_ban =>
        if hasExceptionFor s org_ban.id course_id then
          if s.bans.any (activeCourseBanPred user course_id) then some "course"
          else none
        else some "organization"
      | none =>
        if s.bans.any (activeCourseBanPred user course_id) then some "course"
        else none)

/-! ### MongoDB backend (`forum/backends/mongodb/bans.py`) -/

/-- The organization-extraction snippet at the top of
`DiscussionBans.is_user_banned`: for "course-v1:" ids,
`course_id.split(":")[1].split("+")[0]`; otherwise `course_id.split("/")[0]`;
`None` on `IndexError` (the option models the `except` clause). -/
def mongoExtractOrg (course_id : String) : Option String :=
  if "course-v1:".data.isPrefixOf course_id.data then
    match (splitOnCharList ':' course_id.data []).get? 1 with
    | some seg =>
      ((splitOnCharList '+' seg []).get? 0).map (fun l => (⟨l⟩ : String))
    | none => none
  else
    ((splitOnCharList '/' course_id.data []).get? 0).map (fun l => (⟨l⟩ : String))

/-- From the source: `DiscussionBans.get_active_ban`: builds a query from
`user_id`/`is_active=True` plus whichever of `scope`, `course_id`,
`org_key` are truthy, and returns `find_one` of it. -/
def mongo_get_active_ban (s : DBState) (user_id : UserId) (course_id : Option String)
    (org_key : Option String) (scope : Option Scope) : Option DiscussionBan :=
  s.bans.find? (fun b =>
    b.user == user_id && b.is_active
      && (match scope with | some sc => b.scope == sc | none => true)
      && (if truthy course_id then b.course_id == course_id else true)
      && (if truthy org_key then b.org_key == org_key else true))

/-- From the source: `DiscussionBanExceptions.has_exception(ban_id, course_id)`. -/
def mongo_has_exception (s : DBState) (ban_id : Nat) (course_id : String) : Bool :=
  s.exceptions.any (fun e => e.ban_id == ban_id && e.course_id == course_id)

/-- From the source: `DiscussionBans.is_user_banned` (`forum/backends/mongodb/bans.py` lines
153-204).  The org check runs only when `check_org` holds and the extracted
org name is truthy; with an org ban and an exception for this course it
returns `False` immediately, exactly like the MySQL class method. -/
def DiscussionBans_is_user_banned (s : DBState) (user_id : UserId) (course_id : String)
    (check_org : Bool) : Bool :=
  let org_name := mongoExtractOrg course_id
  let orgDecision : Option Bool :=
    if check_org && truthy org_name then
      match mongo_get_active_ban s user_id none org_name (some Scope.organization) with
      | some org_ban =>
        if mongo_has_exception s org_ban.id course_id then some false else some true
      | none => none
    else none
  match orgDecision with
  | some r => r
  | none => (mongo_get_active_ban s user_id (some course_id) none (some Scope.course)).isSome

/-! ### Ban API (`forum/api/bans.py`) -/

/-- The Python exceptions that can escape the ban API functions.
`valueError` carries the message (the view dispatches on it);
`invalidKey` models `opaque_keys.InvalidKeyError`;
`multipleObjectsReturned` and `dbError` model the corresponding ORM errors,
both caught only by the broad `except Exception` handler of the views. -/
inductive ApiError
  | valueError (msg : String)
  | invalidKey (cid : String)
  | multipleObjectsReturned
  | dbError
deriving DecidableEq, Repr

/-- From the source: `CourseKey.from_string` on a string argument: the canonical key string
on success, `InvalidKeyError` otherwise. -/
def parseCourseKey (cid : String) : Except ApiError String :=
  match courseKeyOrg cid with
  | some _ => .ok cid
  | none => .error (.invalidKey cid)

/-- The `lookup_kwargs` for a course-scope ban in `ban_user`:
`{user, course_id, scope: "course"}` (matched regardless of `is_active`
and `org_key`, exactly as `get_or_create` does). -/
def courseLookupPred (user : UserId) (cid : String) (b : DiscussionBan) : Bool :=
  b.user == user && b.course_id == some cid && b.scope == Scope.course

/-- The `lookup_kwargs` for an organization-scope ban in `ban_user`:
`{user, org_key, scope: "organization"}`. -/
def orgLookupPred (user : UserId) (org : String) (b : DiscussionBan) : Bool :=
  b.user == user && b.org_key == some org && b.scope == Scope.organization

/-- The serialized result of `ban_user`: `_serialize_ban(ban)` mirrors the
row field-for-field, plus the `reactivated` key (present only when a
reactivation happened; modelled as a boolean). -/
structure BanResult where
  ban : DiscussionBan
  reactivated : Bool
deriving DecidableEq, Repr

/-- The scope-dependent first half of the atomic block of `ban_user`: computes
the `get_or_create` lookup predicate, the `course_id` and `org_key` values
a newly inserted row would get, the `course_key` used for the audit row
(`None` unless `CourseKey.from_string` ran), and the row scope. -/
def banLookupInfo (user : UserId) (course_id org_key : Option String) (scope : String) :
    Except ApiError ((DiscussionBan → Bool) × Option String × Option String ×
      Option String × Scope) :=
  if scope == "organization" then
    -- extract org_key from course_id if not provided
    match (if !(truthy org_key) && truthy course_id then
             match parseCourseKey (course_id.getD "") with
             | .ok c => .ok (courseKeyOrg c, some c)
             | .error e => .error e
           else
             (.ok (org_key, none) :
               Except ApiError (Option String × Option String))) with
    | .error e => .error e
    | .ok (org_key2, ck) =>
      if truthy org_key2 then
        .ok (orgLookupPred user (org_key2.getD ""), none, org_key2, ck, Scope.organization)
      else
        .error (.valueError "org_key could not be determined for organization-level ban")
  else
    match parseCourseKey (course_id.getD "") with
    | .ok c => .ok (courseLookupPred user c, some c, courseKeyOrg c, some c, Scope.course)
    | .error e => .error e

/-- The tail of the atomic block of `ban_user`: the single
`ModerationAuditLog.objects.create(...)` call.  The source passes
`action_type=ModerationAuditLog.ACTION_BAN` unconditionally — including on
the reactivation path — and records the `get_or_create` `created` flag only
inside `metadata`.  `audit_ok = false` models that create raising a
database error. -/
def finishBan (audit_ok : Bool) (s1 : DBState) (now : Nat) (user banned_by : UserId)
    (ck : Option String) (scope : String) (reason : String) (ban : DiscussionBan)
    (created reactivated : Bool) : Except ApiError (DBState × BanResult) :=
  if !audit_ok then .error .dbError
  else
    let entry : ModerationAuditLog := {
      action_type := ACTION_BAN, source := SOURCE_HUMAN, timestamp := now,
      target_user := some user, moderator := some banned_by,
      course_id := ck, scope := some scope, reason := reason,
      body := "", original_author := some user, classification := "",
      actions_taken := [], reasoning := "", moderator_override := false,
      metadata := { ban_id := some ban.id, created := some created } }
    .ok ({ s1 with audit := s1.audit ++ [entry] },
         { ban := ban, reactivated := reactivated })

/-- From the source: `ban_user` (`forum/api/bans.py` lines 26-167) as a transition inside the
atomic block: validation, scope-dependent lookup, `get_or_create`,
reactivation of an inactive row in place, and one audit write. -/
def ban_user_tx (audit_ok : Bool) (s : DBState) (now : Nat) (user banned_by : UserId)
    (course_id org_key : Option String) (scope : String) (reason : String) :
    Except ApiError (DBState × BanResult) :=
  if !(scope == "course" || scope == "organization") then
    .error (.valueError ("Invalid scope: " ++ scope ++ ". Must be course or organization"))
  else if scope == "course" && !(truthy course_id) then
    .error (.valueError "course_id is required for course-level bans")
  else if scope == "organization" && !(truthy org_key || truthy course_id) then
    .error (.valueError "org_key or course_id is required for organization-level bans")
  else
    match banLookupInfo user course_id org_key scope with
    | .error e => .error e
    | .ok (lookup, ncid, nok, ck, scopeVal) =>
      match s.bans.filter lookup with
      | [] =>
        -- get_or_create: no row matches the natural key, insert a new one
        let ban : DiscussionBan := {
          id := s.next_ban_id, user := user, course_id := ncid, org_key := nok,
          scope := scopeVal, is_active := true, banned_by := some banned_by,
          reason := if reason == "" then "No reason provided" else reason,
          banned_at := now, unbanned_at := none, unbanned_by := none }
        let s1 := { s with bans := s.bans ++ [ban], next_ban_id := s.next_ban_id + 1 }
        finishBan audit_ok s1 now user banned_by ck scope reason ban true false
      | [ban] =>
        if !ban.is_active then
          -- reactivate previously deactivated ban, in place
          let ban2 : DiscussionBan := { ban with
            is_active := true, banned_by := some banned_by,
            reason := if reason == "" then ban.reason else reason,
            banned_at := now, unbanned_at := none, unbanned_by := none }
          let s1 := { s with
            bans := s.bans.map (fun x => if x.id == ban.id then ban2 else x) }
          finishBan audit_ok s1 now user banned_by ck scope reason ban2 false true
        else
          -- already active: idempotent no-op, return the existing record
          finishBan audit_ok s now user banned_by ck scope reason ban false false
      | _ => .error .multipleObjectsReturned

/-- From the source: `ban_user` as observed by the caller: an exception anywhere inside the
atomic block rolls every write back, so on error the caller still sees the
original state. -/
def ban_user (audit_ok : Bool) (s : DBState) (now : Nat) (user banned_by : UserId)
    (course_id org_key : Option String) (scope : String) (reason : String) :
    DBState × Except ApiError BanResult :=
  match ban_user_tx audit_ok s now user banned_by course_id org_key scope reason with
  | .ok (s2, r) => (s2, .ok r)
  | .error e => (s, .error e)

/-- The `exception_data` dict built by the org-exception branch of
`unban_user`. -/
structure ExceptionData where
  id : Nat
  ban_id : Nat
  course_id : String
  unbanned_by : Option UserId
  reason : String
deriving DecidableEq, Repr

/-- The response dict of `unban_user` (`status` is always "success" on the
non-raising paths and is elided). -/
structure UnbanResult where
  message : String
  exception_created : Bool
  ban : DiscussionBan
  exception : Option ExceptionData
deriving DecidableEq, Repr

/-- From the source: `unban_user` (`forum/api/bans.py` lines 170-342) inside the atomic
block: locate the active ban (by id, or by user/scope/course), then either
create-or-reuse a `DiscussionBanException` (org-scope ban with a truthy
`course_id` — the ban row itself is untouched and `exception_created` is
reported `True` on this branch whether or not the exception already
existed), or deactivate the row and stamp the unban fields.  One audit
write either way.  The ban-location prologue finds the ban either by id
(`get(id=ban_id, is_active=True)`, with `DoesNotExist` re-raised as a
`ValueError` whose message ends in "not found") or by user/scope/course. -/
def unbanFindBan (s : DBState) (ban_id : Option Nat) (user : Option UserId)
    (course_id : Option String) (scope : Option String) :
    Except ApiError DiscussionBan :=
  if truthyNat ban_id then
    match s.bans.find? (fun b => b.id == ban_id.getD 0 && b.is_active) with
    | some b => .ok b
    | none =>
      .error (.valueError
        ("Active ban with id " ++ toString (ban_id.getD 0) ++ " not found"))
  else
    match user with
    | some u =>
      match (if scope == some "course" && truthy course_id then
               match parseCourseKey (course_id.getD "") with
               | .ok c => .ok (some c)
               | .error e => .error e
             else (.ok none : Except ApiError (Option String))) with
      | .error e => .error e
      | .ok cidFilter =>
        match s.bans.filter (fun b =>
            b.user == u && b.is_active
              && (match scope with | some sc => Scope.str b.scope == sc | none => true)
              && (match cidFilter with | some c => b.course_id == some c | none => true)) with
        | [b] => .ok b
        | [] =>
          .error (.valueError
            ("No active ban found for user " ++ toString u ++ " with scope "
              ++ scope.getD "None"))
        | _ => .error .multipleObjectsReturned
    | none => .error (.valueError "Either ban_id or user must be provided")

/-- From the source: `DiscussionBanException.objects.get_or_create(ban=ban, course_id=c,
defaults={unbanned_by, reason})` from the org-exception branch of
`unban_user`: reuse the unique matching row, or insert a new one. -/
def excGetOrCreate (s : DBState) (ban : DiscussionBan) (unbanned_by : UserId)
    (c : String) (reason : String) :
    Except ApiError (DiscussionBanException × Bool × DBState) :=
  match s.exceptions.filter (fun e => e.ban_id == ban.id && e.course_id == c) with
  | [] =>
    let exc : DiscussionBanException := {
      id := s.next_exc_id, ban_id := ban.id, course_id := c,
      unbanned_by := some unbanned_by,
      reason := if reason == "" then
          "Course-level exception to organization ban"
        else reason }
    .ok (exc, true,
         { s with exceptions := s.exceptions ++ [exc],
                  next_exc_id := s.next_exc_id + 1 })
  | [exc] => .ok (exc, false, s)
  | _ => .error .multipleObjectsReturned

def unban_user_tx (audit_ok : Bool) (s : DBState) (now : Nat) (ban_id : Option Nat)
    (user : Option UserId) (unbanned_by : UserId) (course_id : Option String)
    (scope : Option String) (reason : String) :
    Except ApiError (DBState × UnbanResult) :=
  match unbanFindBan s ban_id user course_id scope with
  | .error e => .error e
  | .ok ban =>
    if ban.scope == Scope.organization && truthy course_id then
      -- org-level ban with course_id: create an exception instead of a full unban
      match parseCourseKey (course_id.getD "") with
      | .error e => .error e
      | .ok c =>
        match excGetOrCreate s ban unbanned_by c reason with
        | .error e => .error e
        | .ok (exc, created, s1) =>
          if !audit_ok then .error .dbError
          else
            let entry : ModerationAuditLog := {
              action_type := ACTION_BAN_EXCEPTION, source := SOURCE_HUMAN,
              timestamp := now, target_user := some ban.user,
              moderator := some unbanned_by, course_id := some c,
              scope := some "organization",
              reason := "Exception to org ban: " ++ reason,
              body := "", original_author := some ban.user, classification := "",
              actions_taken := [], reasoning := "", moderator_override := false,
              metadata := { ban_id := some ban.id, exception_id := some exc.id,
                            exception_created := some created, org_key := ban.org_key } }
            .ok ({ s1 with audit := s1.audit ++ [entry] },
                 { message := "unbanned from course (org-level ban still active for other courses)",
                   exception_created := true, ban := ban,
                   exception := some { id := exc.id, ban_id := ban.id, course_id := c,
                                       unbanned_by := some unbanned_by,
                                       reason := exc.reason } })
    else
      -- full unban (course-level, or complete org-level unban)
      let ban2 : DiscussionBan := { ban with
        is_active := false, unbanned_at := some now, unbanned_by := some unbanned_by }
      let s1 := { s with
        bans := s.bans.map (fun x : DiscussionBan => if x.id == ban.id then ban2 else x) }
      if !audit_ok then .error .dbError
      else
        let entry : ModerationAuditLog := {
          action_type := ACTION_UNBAN, source := SOURCE_HUMAN, timestamp := now,
          target_user := some ban.user, moderator := some unbanned_by,
          course_id := ban.course_id, scope := some (Scope.str ban.scope),
          reason := "Unban: " ++ reason,
          body := "", original_author := some ban.user, classification := "",
          actions_taken := [], reasoning := "", moderator_override := false,
          metadata := { ban_id := some ban.id } }
        .ok ({ s1 with audit := s1.audit ++ [entry] },
             { message := "unbanned successfully", exception_created := false,
               ban := ban2, exception := none })

/-- From the source: `unban_user` as observed by the caller (rollback on error). -/
def unban_user (audit_ok : Bool) (s : DBState) (now : Nat) (ban_id : Option Nat)
    (user : Option UserId) (unbanned_by : UserId) (course_id : Option String)
    (scope : Option String) (reason : String) :
    DBState × Except ApiError UnbanResult :=
  match unban_user_tx audit_ok s now ban_id user unbanned_by course_id scope reason with
  | .ok (s2, r) => (s2, .ok r)
  | .error e => (s, .error e)

/-- The comparison behind `order_by("-banned_at")`: descending ban
timestamp. -/
def bannedAtDesc (a b : DiscussionBan) : Prop := b.banned_at ≤ a.banned_at

instance : DecidableRel bannedAtDesc := fun a b => Nat.decLe b.banned_at a.banned_at

instance : IsTotal DiscussionBan bannedAtDesc :=
  ⟨fun a b => (Nat.le_total b.banned_at a.banned_at).imp id id⟩

instance : IsTrans DiscussionBan bannedAtDesc :=
  ⟨fun _ _ _ h1 h2 => Nat.le_trans h2 h1⟩

/-- From the source: `get_banned_users` (`forum/api/bans.py` lines 345-398): chained
queryset filters; with a truthy `course_id` and no `scope`, the filter is
`Q(course_id=course_key) | Q(org_key=org, scope="organization")` on the
organization derived from the course key; final `order_by("-banned_at")`. -/
def get_banned_users (s : DBState) (course_id : Option String)
    (org_key : Option String) (include_inactive : Bool) (scope : Option String) :
    Except ApiError (List DiscussionBan) :=
  let q1 := if !include_inactive then s.bans.filter (fun b => b.is_active) else s.bans
  let q2 := match scope with
    | some sc => q1.filter (fun b => Scope.str b.scope == sc)
    | none => q1
  match (if truthy course_id then
           match parseCourseKey (course_id.getD "") with
           | .error e => .error e
           | .ok c =>
             match scope with
             | none =>
               match courseKeyOrg c with
               | some org =>
                 .ok (q2.filter (fun b =>
                   b.course_id == some c
                     || (b.org_key == some org && b.scope == Scope.organization)))
               | none =>
                 -- fallback to just course-level bans if org cannot be extracted
                 .ok (q2.filter (fun b => b.course_id == some c))
             | some sc =>
               if sc == "course" then .ok (q2.filter (fun b => b.course_id == some c))
               else .ok q2
         else if truthy org_key then
           .ok (q2.filter (fun b => b.org_key == org_key))
         else (.ok q2 : Except ApiError (List DiscussionBan))) with
  | .error e => .error e
  | .ok q3 => .ok (List.insertionSort bannedAtDesc q3)

/-- From the source: `get_banned_usernames` (`forum/api/bans.py` lines 566-593): active bans
only; with a truthy `course_id`, the same
`Q(course_id=...) | Q(org_key=..., scope="organization")` union; the
result is the set of banned users (usernames stand in bijection with user
ids here). -/
def get_banned_usernames (s : DBState) (course_id : Option String)
    (org_key : Option String) : Except ApiError (List UserId) :=
  let q0 := s.bans.filter (fun b => b.is_active)
  match (if truthy course_id then
           match parseCourseKey (course_id.getD "") with
           | .error e => .error e
           | .ok c =>
             let organization := match courseKeyOrg c with
               | some o => some o
               | none => org_key
             .ok (q0.filter (fun b =>
               b.course_id == some c
                 || (b.org_key == organization && b.scope == Scope.organization)))
         else if truthy org_key then
           .ok (q0.filter (fun b => b.org_key == org_key))
         else (.ok q0 : Except ApiError (List DiscussionBan))) with
  | .error e => .error e
  | .ok q1 => .ok (q1.map (fun b => b.user))

/-! ### View-layer error dispatch (`forum/views/bans.py`) -/

/-- From the source: `str.lower()` on the message (`Char.toLower` per character). -/
def strLower (s : String) : String := ⟨s.data.map Char.toLower⟩

/-- Substring test (Python `in` on strings), over character lists. -/
def containsSub (pat : List Char) : List Char → Bool
  | [] => pat.isEmpty
  | c :: rest => pat.isPrefixOf (c :: rest) || containsSub pat rest

/-- The dispatch condition in `UnbanUserAPIView.post`:
`"not found" in str(e).lower()`. -/
def msgHasNotFound (msg : String) : Bool :=
  containsSub "not found".data (strLower msg).data

/-- The `except` ladder of `UnbanUserAPIView.post`
(`forum/views/bans.py` lines 108-138): a `ValueError` whose message
contains "not found" becomes 404, any other `ValueError` becomes 400, and
errors reaching the broad `except Exception` handler become 500.  Request
bodies rejected by the serializer never reach `unban_user` and get 400. -/
def unban_view_status : ApiError → Nat
  | .valueError msg => if msgHasNotFound msg then 404 else 400
  | .invalidKey _ => 500
  | .multipleObjectsReturned => 500
  | .dbError => 500

/-! ### AI-moderation audit path (`forum/ai_moderation.py`) -/

/-- The possible outcomes of the `audit_log.save()` call inside
`create_moderation_audit_log`: the save succeeds; it raises one of the
exception classes named by the `except` clause — exactly
`(ValueError, TypeError, AttributeError)` in the source — or it raises
any other exception (for example a database error), which that clause
does not name. -/
inductive AuditSaveOutcome
  | success
  | caughtError
  | dbError
deriving DecidableEq, Repr

/-- From the source: `create_moderation_audit_log` (`forum/ai_moderation.py`
lines 39-94): builds a `ModerationAuditLog` (keeping the model defaults
`action_type="no_action"`, `source="ai"`) and saves it inside
`try/except (ValueError, TypeError, AttributeError)`.  A failure of one
of those three classes is logged (`log.error`, the returned flag) and
never propagated, leaving prior state untouched; any other failure of the
save — a database error in particular — is *not* named by the `except`
clause and propagates out of the function.  The `.get(key, default)` dict
lookups are modelled by empty-string fallbacks. -/
def create_moderation_audit_log (outcome : AuditSaveOutcome) (s : DBState) (now : Nat)
    (body : String) (classification : String) (actions_taken : List String)
    (reasoning : String) (original_author : Option UserId) :
    Except ApiError (DBState × Bool) :=
  let entry : ModerationAuditLog := {
    timestamp := now, body := body,
    reasoning := if reasoning == "" then "No reasoning provided" else reasoning,
    classification := if classification == "" then "spam" else classification,
    actions_taken := actions_taken,
    original_author := original_author }
  match outcome with
  | .success => .ok ({ s with audit := s.audit ++ [entry] }, false)
  | .caughtError => .ok (s, true)
  | .dbError => .error .dbError

/-! ### Admin surface (`forum/admin.py`) -/

/-- The per-model permission and field surface a Django `ModelAdmin`
exposes.  Each `has_*_permission` field records whether the admin class
permits that action for an otherwise-authorized staff user (the Django
default, when the class does not override the hook, is to permit it). -/
structure ModelAdminSurface where
  has_add_permission : Bool
  has_change_permission : Bool
  has_delete_permission : Bool
  readonly_fields : List String
  form_fields : List String
deriving DecidableEq, Repr

/-- From the source: `ModerationAuditLogAdmin` (`forum/admin.py` lines 194-289):
`has_add_permission` and `has_delete_permission` are overridden to return
`False`; `has_change_permission` is *not* overridden, so the Django
default (permit) applies.  `form_fields` flattens the `fieldsets`
declaration in order; `readonly_fields` is copied verbatim. -/
def moderationAuditLogAdmin : ModelAdminSurface := {
  has_add_permission := false,
  has_change_permission := true,
  has_delete_permission := false,
  readonly_fields := ["timestamp", "body", "classifier_output", "reasoning",
    "classification", "actions_taken", "confidence_score", "original_author"],
  form_fields := ["timestamp", "classification", "actions_taken",
    "confidence_score", "reasoning", "body", "original_author",
    "moderator_override", "moderator", "override_reason", "classifier_output"] }

/-- The fields of an admin form a staff user can actually edit: the
declared form fields minus the read-only ones. -/
def editableFields (a : ModelAdminSurface) : List String :=
  a.form_fields.filter (fun f => !(a.readonly_fields.contains f))

/-- The in-place field overwrite performed by the reactivation branch of
`ban_user`: moderator, reason (`reason or ban.reason`) and timestamp
overwritten, unban fields cleared, `is_active` set. -/
def reactivatedRow (b : DiscussionBan) (m : UserId) (reason : String)
    (now : Nat) : DiscussionBan :=
  { b with
    is_active := true, banned_by := some m,
    reason := if reason == "" then b.reason else reason,
    banned_at := now, unbanned_at := none, unbanned_by := none }

/-- The full-unban overwrite performed by the else branch of `unban_user`:
`is_active = False`, `unbanned_at`/`unbanned_by` stamped. -/
def deactivatedRow (b : DiscussionBan) (m : UserId) (now : Nat) : DiscussionBan :=
  { b with is_active := false, unbanned_at := some now, unbanned_by := some m }

/-! ### Concrete scenarios used by counterexamples and witnesses -/

/-- A canonical new-style course key in organization `edX`. -/
def exCourse : String := "course-v1:edX+DemoX+2024"

/-- A second course of the same organization. -/
def exCourse2 : String := "course-v1:edX+Other+2024"

/-- An active organization-scope ban of user 7 from org `edX`. -/
def exOrgBan : DiscussionBan := {
  id := 1, user := 7, course_id := none, org_key := some "edX",
  scope := Scope.organization, is_active := true, banned_by := some 2,
  reason := "org-wide spam", banned_at := 10, unbanned_at := none,
  unbanned_by := none }

/-- An independent active course-scope ban of the same user on `exCourse`. -/
def exCourseBan : DiscussionBan := {
  id := 2, user := 7, course_id := some exCourse, org_key := some "edX",
  scope := Scope.course, is_active := true, banned_by := some 2,
  reason := "course spam", banned_at := 11, unbanned_at := none,
  unbanned_by := none }

/-- The exception carving `exCourse` out of the organization ban. -/
def exException : DiscussionBanException := {
  id := 1, ban_id := 1, course_id := exCourse, unbanned_by := some 2,
  reason := "appeal approved" }

/-- Org ban + exception for `exCourse` + independent course ban on
`exCourse`: the configuration of claim C1. -/
def exState : DBState := {
  bans := [exOrgBan, exCourseBan], exceptions := [exException], audit := [],
  next_ban_id := 3, next_exc_id := 2 }

/-- Org ban + exception for `exCourse`, without a course-level ban. -/
def exStateNoCourseBan : DBState := {
  bans := [exOrgBan], exceptions := [exException], audit := [],
  next_ban_id := 3, next_exc_id := 2 }

/-- A previously deactivated course-scope ban of user 7 on `exCourse`. -/
def inactiveCourseBan : DiscussionBan := {
  id := 1, user := 7, course_id := some exCourse, org_key := some "edX",
  scope := Scope.course, is_active := false, banned_by := some 2,
  reason := "old reason", banned_at := 3, unbanned_at := some 4,
  unbanned_by := some 2 }

/-- A store holding only that inactive ban (the reactivation scenario). -/
def reactState : DBState := {
  bans := [inactiveCourseBan], exceptions := [], audit := [],
  next_ban_id := 2, next_exc_id := 1 }

/-- The empty store. -/
def emptyState : DBState := {}

/-! ### Helper lemmas -/

theorem find_congr_pred {α : Type} {p q : α → Bool} (h : ∀ a, p a = q a)
    (l : List α) : l.find? p = l.find? q := by
  induction l with
  | nil => rfl
  | cons a t ih =>
    cases hq : q a with
    | false =>
      rw [List.find?_cons_of_neg _ (by simp [h a, hq]),
          List.find?_cons_of_neg _ (by simp [hq])]
      exact ih
    | true =>
      rw [List.find?_cons_of_pos _ (by simp [h a, hq]),
          List.find?_cons_of_pos _ (by simp [hq])]

theorem find_isSome_eq_any {α : Type} (p : α → Bool) (l : List α) :
    (l.find? p).isSome = l.any p := by
  induction l with
  | nil => rfl
  | cons a t ih =>
    cases hp : p a with
    | false =>
      rw [List.find?_cons_of_neg t (show ¬ p a = true by simp [hp])]
      simp [hp, ih]
    | true =>
      rw [List.find?_cons_of_pos t hp]
      simp [hp]

theorem containsSub_append (pat l2 : List Char) (h : containsSub pat l2 = true)
    (l1 : List Char) : containsSub pat (l1 ++ l2) = true := by
  induction l1 with
  | nil => simpa using h
  | cons c t ih => simp [containsSub, ih]

theorem msgHasNotFound_append (x : String) :
    msgHasNotFound (x ++ " not found") = true := by
  show containsSub "not found".data ((x ++ " not found").data.map Char.toLower) = true
  have h1 : (x ++ " not found").data = x.data ++ " not found".data := rfl
  rw [h1, List.map_append]
  have h2 : (" not found".data.map Char.toLower) = ' ' :: "not found".data := by decide
  rw [h2]
  exact containsSub_append _ _ (by decide) _

/-! ### Claim C1 -/

/-- C1 counterexample: user 7 has an active org-scope ban on `edX`, an
exception for `exCourse` on that ban, and a separate active course-scope
ban on `exCourse`; the claim says `is_user_banned` returns `true` here,
but it returns `false` — the exception short-circuits the resolution and
the independent course ban is never consulted. -/
theorem c1_counterexample :
    courseKeyOrg exCourse = some "edX" ∧
    exState.bans.find? (activeOrgBanPred 7 "edX") = some exOrgBan ∧
    hasExceptionFor exState exOrgBan.id exCourse = true ∧
    exState.bans.any (activeCourseBanPred 7 exCourse) = true ∧
    ¬ DiscussionBan_is_user_banned exState 7 exCourse true = some true :=
  ⟨rfl, rfl, rfl, rfl, by decide⟩

/-- C1 amended: with an active org-scope ban, an exception for the course,
and an independent active course-scope ban, `is_user_banned` returns
`false` — the exception suppresses the org ban and resolution stops
without checking the course-level ban.  The fall-through described by the
claim exists only in `get_user_ban_scope`, which reports `"course"` in the
same situation. -/
theorem c1_amended (s : DBState) (u : UserId) (c org : String) (ob : DiscussionBan)
    (horg : courseKeyOrg c = some org)
    (hfind : s.bans.find? (activeOrgBanPred u org) = some ob)
    (hexc : hasExceptionFor s ob.id c = true)
    (hcourse : s.bans.any (activeCourseBanPred u c) = true) :
    DiscussionBan_is_user_banned s u c true = some false ∧
    get_user_ban_scope s u c = some (some "course") := by
  constructor
  · simp [DiscussionBan_is_user_banned, horg, hfind, hexc]
  · simp [get_user_ban_scope, horg, hfind, hexc, hcourse]

/-- C1 amended, witnessed on the concrete `exState` scenario. -/
theorem c1_amended_witness :
    DiscussionBan_is_user_banned exState 7 exCourse true = some false ∧
    get_user_ban_scope exState 7 exCourse = some (some "course") :=
  c1_amended exState 7 exCourse "edX" exOrgBan rfl rfl rfl rfl

/-! ### Claim C2 -/

/-- C2: with an active organization-scope ban for user `u` on `org`, every
course of that org with no exception and no course-scope ban resolves to
banned; and an exception for `c1` only makes `is_user_banned` false on
`c1` while every exception-free course `c2` of the org stays banned. -/
theorem c2_org_precedence_and_locality (s : DBState) (u : UserId) (org : String)
    (ob : DiscussionBan)
    (hfind : s.bans.find? (activeOrgBanPred u org) = some ob) :
    (∀ c, courseKeyOrg c = some org → hasExceptionFor s ob.id c = false →
        s.bans.any (activeCourseBanPred u c) = false →
        DiscussionBan_is_user_banned s u c true = some true) ∧
    (∀ c1 c2, courseKeyOrg c1 = some org → courseKeyOrg c2 = some org →
        hasExceptionFor s ob.id c1 = true → hasExceptionFor s ob.id c2 = false →
        DiscussionBan_is_user_banned s u c1 true = some false ∧
        DiscussionBan_is_user_banned s u c2 true = some true) := by
  constructor
  · intro c hc hex _hcb
    simp [DiscussionBan_is_user_banned, hc, hfind, hex]
  · intro c1 c2 h1 h2 he1 he2
    constructor
    · simp [DiscussionBan_is_user_banned, h1, hfind, he1]
    · simp [DiscussionBan_is_user_banned, h2, hfind, he2]

/-- C2 witnessed on `exState`: banned in `exCourse2` (no exception), not
banned in `exCourse` (exception). -/
theorem c2_witness :
    DiscussionBan_is_user_banned exState 7 exCourse2 true = some true ∧
    (DiscussionBan_is_user_banned exState 7 exCourse true = some false ∧
      DiscussionBan_is_user_banned exState 7 exCourse2 true = some true) := by
  refine ⟨?_, ?_⟩
  · exact (c2_org_precedence_and_locality exState 7 "edX" exOrgBan rfl).1
      exCourse2 rfl rfl rfl
  · exact (c2_org_precedence_and_locality exState 7 "edX" exOrgBan rfl).2
      exCourse exCourse2 rfl rfl rfl rfl

/-! ### Claim C9 -/

/-- C9 counterexample: the audit-log admin does *not* withhold update
capability — `has_change_permission` is not overridden (the Django default
permits it) and the human-override fields are editable on the form.  The
claim that no update permission is granted is therefore false. -/
theorem c9_counterexample :
    ¬ (moderationAuditLogAdmin.has_change_permission = false) ∧
    "moderator_override" ∈ editableFields moderationAuditLogAdmin := by
  exact ⟨by decide, by decide⟩

/-- C9 amended: add and delete are disabled on the audit-log admin, but
change is not: the human-override fields (`moderator_override`,
`moderator`, `override_reason`) remain editable, while the AI decision
fields are read-only.  Audit entries are thus protected against deletion
and manual creation, not against update. -/
theorem c9_amended :
    moderationAuditLogAdmin.has_add_permission = false ∧
    moderationAuditLogAdmin.has_delete_permission = false ∧
    moderationAuditLogAdmin.has_change_permission = true ∧
    editableFields moderationAuditLogAdmin
      = ["moderator_override", "moderator", "override_reason"] := by
  exact ⟨rfl, rfl, rfl, rfl⟩

/-! ### Claim C7 -/

/-- Every `.ok` outcome of the `ban_user` transaction appends exactly one
audit entry, and its action type is `ACTION_BAN` on all three paths
(created, found-active, reactivated). -/
theorem ban_user_audit_shape (s : DBState) (now : Nat) (u m : UserId)
    (cid ok2 : Option String) (scope reason : String) (s2 : DBState) (r : BanResult)
    (h : ban_user_tx true s now u m cid ok2 scope reason = .ok (s2, r)) :
    ∃ entry, s2.audit = s.audit ++ [entry] ∧ entry.action_type = ACTION_BAN := by
  unfold ban_user_tx at h
  repeat' split at h
  all_goals first
    | (injection h with hp
       injection hp with h1 h2
       subst h1
       exact ⟨_, rfl, rfl⟩)
    | injection h

/-- C7 counterexample: reactivating the inactive ban in `reactState`
reports `reactivated = true`, yet the single audit entry written carries
action type `ACTION_BAN` ("ban_user"), not `ACTION_BAN_REACTIVATE`
("ban_reactivate") as the claim requires. -/
theorem c7_counterexample :
    ((ban_user true reactState 9 7 3 (some exCourse) none "course" "again").2.map
        (fun r => r.reactivated) = .ok true) ∧
    ((ban_user true reactState 9 7 3 (some exCourse) none "course" "again").1.audit.map
        (fun e => e.action_type) = [ACTION_BAN]) ∧
    ACTION_BAN ≠ ACTION_BAN_REACTIVATE :=
  ⟨rfl, rfl, by decide⟩

/-- C7 amended: every successful `ban_user` call writes exactly one
`ModerationAuditLog` entry, and its action type is always `ACTION_BAN` —
including when an inactive ban was reactivated in place.  Reactivation is
reported only through the `reactivated` flag of the result (and the metadata field
`created = false`); `ACTION_BAN_REACTIVATE` is never written. -/
theorem c7_amended (s : DBState) (now : Nat) (u m : UserId)
    (cid ok2 : Option String) (scope reason : String) (s2 : DBState) (r : BanResult)
    (h : ban_user true s now u m cid ok2 scope reason = (s2, .ok r)) :
    ∃ entry, s2.audit = s.audit ++ [entry] ∧ entry.action_type = ACTION_BAN := by
  apply ban_user_audit_shape s now u m cid ok2 scope reason s2 r
  unfold ban_user at h
  revert h
  cases htx : ban_user_tx true s now u m cid ok2 scope reason with
  | ok p =>
    obtain ⟨ps, pr⟩ := p
    intro h
    injection h with h1 h2
    injection h2 with h3
    rw [h1, h3]
  | error e =>
    intro h
    injection h with h1 h2
    exact absurd h2 (by simp)

/-- C7 amended, witnessed on the concrete reactivation scenario. -/
theorem c7_amended_witness :
    ∃ entry, (ban_user true reactState 9 7 3 (some exCourse) none "course" "again").1.audit
      = reactState.audit ++ [entry] ∧ entry.action_type = ACTION_BAN :=
  c7_amended reactState 9 7 3 (some exCourse) none "course" "again" _ _ rfl

/-! ### Claim C8 -/

/-- With a failing audit write, the `ban_user` transaction always raises:
no path reaches `.ok`. -/
theorem ban_user_tx_fails_without_audit (s : DBState) (now : Nat) (u m : UserId)
    (cid ok2 : Option String) (scope reason : String) :
    ∃ e, ban_user_tx false s now u m cid ok2 scope reason = .error e := by
  unfold ban_user_tx
  repeat' split
  all_goals exact ⟨_, rfl⟩

/-- With a failing audit write, the `unban_user` transaction always
raises as well: both branches guard their audit create the same way. -/
theorem unban_user_tx_fails_without_audit (s : DBState) (now : Nat)
    (ban_id : Option Nat) (user : Option UserId) (m : UserId)
    (cid sc : Option String) (reason : String) :
    ∃ e, unban_user_tx false s now ban_id user m cid sc reason = .error e := by
  unfold unban_user_tx
  repeat' split
  all_goals first
    | exact ⟨_, rfl⟩
    | simp_all

/-- C8 counterexample: on the empty store, a `ban_user` call whose audit
write raises leaves the store exactly as it was — no ban row is written
(the atomic block rolls back), contradicting the claim that the primary
write remains observable; the same call with a working audit write
succeeds. -/
theorem c8_counterexample :
    (ban_user false emptyState 5 7 2 (some exCourse) none "course" "spam"
      = (emptyState, .error .dbError)) ∧
    emptyState.bans = [] ∧
    (∃ r, (ban_user true emptyState 5 7 2 (some exCourse) none "course" "spam").2
      = .ok r) :=
  ⟨rfl, rfl, ⟨_, rfl⟩⟩

/-- C8 amended: the audit writes of `ban_user` and of `unban_user` run
inside the same atomic transaction with no exception handling, so an
audit failure aborts the call and rolls the primary write back — the
caller sees an error and the original state, for ban and unban alike.
The AI-moderation audit path (`create_moderation_audit_log`) catches
exactly `ValueError`/`TypeError`/`AttributeError` from the save: such a
failure is logged, the prior state is untouched and nothing propagates;
on success it appends exactly one entry; but any other failure of the
save — a database error — is not named by the `except` clause and still
propagates. -/
theorem c8_amended :
    (∀ (s : DBState) (now : Nat) (u m : UserId) (cid ok2 : Option String)
        (scope reason : String),
      (ban_user false s now u m cid ok2 scope reason).1 = s ∧
      ∃ e, (ban_user false s now u m cid ok2 scope reason).2 = .error e) ∧
    (∀ (s : DBState) (now : Nat) (ban_id : Option Nat) (user : Option UserId)
        (m : UserId) (cid sc : Option String) (reason : String),
      (unban_user false s now ban_id user m cid sc reason).1 = s ∧
      ∃ e, (unban_user false s now ban_id user m cid sc reason).2 = .error e) ∧
    (∀ (s : DBState) (now : Nat) (body cls : String) (acts : List String)
        (rsn : String) (auth : Option UserId),
      create_moderation_audit_log .caughtError s now body cls acts rsn auth
        = .ok (s, true)) ∧
    (∀ (s : DBState) (now : Nat) (body cls : String) (acts : List String)
        (rsn : String) (auth : Option UserId),
      ∃ entry, create_moderation_audit_log .success s now body cls acts rsn auth
        = .ok ({ s with audit := s.audit ++ [entry] }, false)) ∧
    (∀ (s : DBState) (now : Nat) (body cls : String) (acts : List String)
        (rsn : String) (auth : Option UserId),
      create_moderation_audit_log .dbError s now body cls acts rsn auth
        = .error .dbError) := by
  refine ⟨?_, ?_, ?_, ?_, ?_⟩
  · intro s now u m cid ok2 scope reason
    obtain ⟨e, he⟩ := ban_user_tx_fails_without_audit s now u m cid ok2 scope reason
    constructor
    · unfold ban_user; rw [he]
    · exact ⟨e, by unfold ban_user; rw [he]⟩
  · intro s now ban_id user m cid sc reason
    obtain ⟨e, he⟩ := unban_user_tx_fails_without_audit s now ban_id user m cid sc reason
    constructor
    · unfold unban_user; rw [he]
    · exact ⟨e, by unfold unban_user; rw [he]⟩
  · intro s now body cls acts rsn auth; rfl
  · intro s now body cls acts rsn auth; exact ⟨_, rfl⟩
  · intro s now body cls acts rsn auth; rfl

/-- C8 amended, witnessed on concrete stores: a ban and an unban whose
audit write fails both leave the store untouched, a caught audit failure
in the AI path is logged without propagating, and an uncaught database
error there surfaces as an error. -/
theorem c8_amended_witness :
    (ban_user false emptyState 5 7 2 (some exCourse) none "course" "spam").1
        = emptyState ∧
    (unban_user false exState 6 (some 2) none 2 none none "done").1 = exState ∧
    create_moderation_audit_log .caughtError emptyState 5 "body" "spam" ["flagged"] "r"
        (some 7) = .ok (emptyState, true) ∧
    create_moderation_audit_log .dbError emptyState 5 "body" "spam" ["flagged"] "r"
        (some 7) = .error .dbError :=
  ⟨(c8_amended.1 emptyState 5 7 2 (some exCourse) none "course" "spam").1,
   (c8_amended.2.1 exState 6 (some 2) none 2 none none "done").1,
   c8_amended.2.2.1 emptyState 5 "body" "spam" ["flagged"] "r" (some 7),
   c8_amended.2.2.2.2 emptyState 5 "body" "spam" ["flagged"] "r" (some 7)⟩

/-! ### Claim C5 -/

/-- C5: an unban request whose ban id matches no active ban (nonexistent,
or already inactive) fails with the "not found" `ValueError`, the store is
completely unchanged (bans, exceptions and audit log alike), and the view
maps this error to 404 while a validation-style `ValueError` (one without
"not found" in its message) maps to 400. -/
theorem c5_unban_not_found (s : DBState) (now : Nat) (bid : Nat) (m : UserId)
    (cid sc : Option String) (reason : String)
    (hbid : bid ≠ 0)
    (hnone : s.bans.find? (fun b => b.id == bid && b.is_active) = none) :
    (unban_user true s now (some bid) none m cid sc reason
      = (s, .error (.valueError
          ("Active ban with id " ++ toString bid ++ " not found")))) ∧
    unban_view_status (.valueError
      ("Active ban with id " ++ toString bid ++ " not found")) = 404 ∧
    unban_view_status (.valueError "Either ban_id or user must be provided") = 400 := by
  refine ⟨?_, ?_, ?_⟩
  · unfold unban_user unban_user_tx unbanFindBan
    simp [truthyNat, hbid, hnone]
  · show (if msgHasNotFound ("Active ban with id " ++ toString bid ++ " not found") = true
      then 404 else 400) = 404
    rw [msgHasNotFound_append]
    rfl
  · decide

/-- C5 witnessed: unban of ban id 3 on the empty store. -/
theorem c5_unban_not_found_witness :
    (unban_user true emptyState 4 (some 3) none 2 none none ""
      = (emptyState, .error (.valueError
          ("Active ban with id " ++ toString 3 ++ " not found")))) ∧
    unban_view_status (.valueError
      ("Active ban with id " ++ toString 3 ++ " not found")) = 404 ∧
    unban_view_status (.valueError "Either ban_id or user must be provided") = 400 :=
  c5_unban_not_found emptyState 4 3 2 none none "" (by decide) rfl

/-! ### Claim C3 -/

/-- C3: `ban_user` is idempotent and reactivates in place.  For any ban
key (validated call whose lookup predicate matches exactly one row):
(1) when the matching row is active, the call is a no-op on the ban table
and returns that row without error and without the `reactivated` flag;
(2) when the matching row is inactive, that same row is reactivated in
place — moderator, reason and timestamp overwritten (an empty reason
keeping the old one, as `reason or ban.reason` does), unban fields
cleared, `is_active` set — the result reports `reactivated = true`, and
the row count is unchanged;
(3) ban → unban → ban on the same course key, starting from an empty
store, ends with exactly one row, reactivated. -/
theorem c3_ban_idempotent_reactivation :
    (∀ (s : DBState) (now : Nat) (u m : UserId) (cid ok2 : Option String)
        (scope reason : String) (lookup : DiscussionBan → Bool)
        (ncid nok ck : Option String) (scopeVal : Scope) (b : DiscussionBan),
      (scope == "course" || scope == "organization") = true →
      (scope == "course" && !(truthy cid)) = false →
      (scope == "organization" && !(truthy ok2 || truthy cid)) = false →
      banLookupInfo u cid ok2 scope = .ok (lookup, ncid, nok, ck, scopeVal) →
      s.bans.filter lookup = [b] →
      b.is_active = true →
      ∃ s2, ban_user true s now u m cid ok2 scope reason
          = (s2, .ok { ban := b, reactivated := false }) ∧ s2.bans = s.bans) ∧
    (∀ (s : DBState) (now : Nat) (u m : UserId) (cid ok2 : Option String)
        (scope reason : String) (lookup : DiscussionBan → Bool)
        (ncid nok ck : Option String) (scopeVal : Scope) (b : DiscussionBan),
      (scope == "course" || scope == "organization") = true →
      (scope == "course" && !(truthy cid)) = false →
      (scope == "organization" && !(truthy ok2 || truthy cid)) = false →
      banLookupInfo u cid ok2 scope = .ok (lookup, ncid, nok, ck, scopeVal) →
      s.bans.filter lookup = [b] →
      b.is_active = false →
      ∃ s2, ban_user true s now u m cid ok2 scope reason
          = (s2, .ok { ban := reactivatedRow b m reason now, reactivated := true }) ∧
        s2.bans = s.bans.map (fun x =>
          if x.id == b.id then reactivatedRow b m reason now else x) ∧
        s2.bans.length = s.bans.length) ∧
    (∀ (u m : UserId) (c org reason reason2 : String) (t1 t2 t3 : Nat),
      courseKeyOrg c = some org → c ≠ "" →
      let p1 := ban_user true emptyState t1 u m (some c) none "course" reason
      let p2 := unban_user true p1.1 t2 (some 1) none m none none ""
      let p3 := ban_user true p2.1 t3 u m (some c) none "course" reason2
      p1.2.map (fun r => r.ban.is_active) = .ok true ∧
      p2.2.map (fun r => r.ban.is_active) = .ok false ∧
      p3.2.map (fun r => r.reactivated) = .ok true ∧
      p3.1.bans.length = 1) := by
  refine ⟨?_, ?_, ?_⟩
  · intro s now u m cid ok2 scope reason lookup ncid nok ck scopeVal b
      hv1 hv2 hv3 hinfo hfilt hact
    have e1 : ban_user_tx true s now u m cid ok2 scope reason
        = finishBan true s now u m ck scope reason b false false := by
      unfold ban_user_tx
      simp [hv1, hv2, hv3, hinfo, hfilt, hact]
      intro h1 h2 h3
      rw [h1] at hv3
      simp [h2, h3] at hv3
    unfold ban_user
    rw [e1]
    exact ⟨_, rfl, rfl⟩
  · intro s now u m cid ok2 scope reason lookup ncid nok ck scopeVal b
      hv1 hv2 hv3 hinfo hfilt hact
    have e1 : ban_user_tx true s now u m cid ok2 scope reason
        = finishBan true
            { s with bans := s.bans.map (fun x =>
                if x.id == b.id then reactivatedRow b m reason now else x) }
            now u m ck scope reason (reactivatedRow b m reason now) false true := by
      unfold ban_user_tx
      simp [hv1, hv2, hv3, hinfo, hfilt, hact, reactivatedRow]
      intro h1 h2 h3
      rw [h1] at hv3
      simp [h2, h3] at hv3
    unfold ban_user
    rw [e1]
    refine ⟨_, rfl, rfl, ?_⟩
    simp
  · intro u m c org reason reason2 t1 t2 t3 horg hc
    have hcb : (c != "") = true := by simp [hc]
    refine ⟨?_, ?_, ?_, ?_⟩ <;>
      simp [ban_user, ban_user_tx, banLookupInfo, parseCourseKey, finishBan,
        unban_user, unban_user_tx, unbanFindBan, excGetOrCreate, courseLookupPred,
        truthy, truthyNat, horg, hcb, emptyState, Scope.str, Except.map,
        List.filter, List.find?, List.map, List.any]

/-- C3 witnessed: no-op re-ban of the active `exCourseBan`, in-place
reactivation of `inactiveCourseBan`, and the full ban → unban → ban
round trip from the empty store. -/
theorem c3_witness :
    (∃ s2, ban_user true exState 20 7 2 (some exCourse) none "course" "rebanned"
        = (s2, .ok { ban := exCourseBan, reactivated := false }) ∧
      s2.bans = exState.bans) ∧
    (∃ s2, ban_user true reactState 9 7 3 (some exCourse) none "course" "again"
        = (s2, .ok { ban := reactivatedRow inactiveCourseBan 3 "again" 9, reactivated := true }) ∧
      s2.bans = reactState.bans.map (fun x =>
        if x.id == inactiveCourseBan.id then reactivatedRow inactiveCourseBan 3 "again" 9
        else x) ∧
      s2.bans.length = reactState.bans.length) ∧
    (let p1 := ban_user true emptyState 1 7 2 (some exCourse) none "course" "r1"
     let p2 := unban_user true p1.1 2 (some 1) none 2 none none ""
     let p3 := ban_user true p2.1 3 7 2 (some exCourse) none "course" "r2"
     p1.2.map (fun r => r.ban.is_active) = .ok true ∧
     p2.2.map (fun r => r.ban.is_active) = .ok false ∧
     p3.2.map (fun r => r.reactivated) = .ok true ∧
     p3.1.bans.length = 1) := by
  refine ⟨?_, ?_, ?_⟩
  · exact c3_ban_idempotent_reactivation.1 exState 20 7 2 (some exCourse) none
      "course" "rebanned" (courseLookupPred 7 exCourse) (some exCourse) (some "edX")
      (some exCourse) Scope.course exCourseBan (by decide) (by decide) (by decide)
      rfl rfl rfl
  · exact c3_ban_idempotent_reactivation.2.1 reactState 9 7 3 (some exCourse) none
      "course" "again" (courseLookupPred 7 exCourse) (some exCourse) (some "edX")
      (some exCourse) Scope.course inactiveCourseBan (by decide) (by decide)
      (by decide) rfl rfl rfl
  · exact c3_ban_idempotent_reactivation.2.2 7 2 exCourse "edX" "r1" "r2" 1 2 3
      rfl (by decide)

/-! ### Claim C4 -/

/-- C4: unban branching.  (1) Unbanning an organization-scope ban with a
course id creates (or idempotently reuses) a `BanException` for that
(ban, course) pair, leaves the ban table — in particular the parent row —
completely untouched, and reports `exception_created = true`.
(2) Every other unban (course-scope ban, or org-scope without course id)
deactivates the row in place, stamping `unbanned_at`/`unbanned_by`, and
reports `exception_created = false` with no exception written. -/
theorem c4_unban_branching :
    (∀ (s : DBState) (now bid : Nat) (m : UserId) (c org : String)
        (sc : Option String) (reason : String) (b : DiscussionBan),
      bid ≠ 0 →
      s.bans.find? (fun x => x.id == bid && x.is_active) = some b →
      b.scope = Scope.organization →
      c ≠ "" →
      courseKeyOrg c = some org →
      (s.exceptions.filter (fun e => e.ban_id == b.id && e.course_id == c)).length ≤ 1 →
      ∃ s2 r, unban_user true s now (some bid) none m (some c) sc reason = (s2, .ok r) ∧
        s2.bans = s.bans ∧
        r.ban = b ∧
        r.exception_created = true ∧
        hasExceptionFor s2 b.id c = true ∧
        (hasExceptionFor s b.id c = true → s2.exceptions = s.exceptions)) ∧
    (∀ (s : DBState) (now bid : Nat) (m : UserId) (cid sc : Option String)
        (reason : String) (b : DiscussionBan),
      bid ≠ 0 →
      s.bans.find? (fun x => x.id == bid && x.is_active) = some b →
      (b.scope == Scope.organization && truthy cid) = false →
      ∃ s2, unban_user true s now (some bid) none m cid sc reason
          = (s2, .ok { message := "unbanned successfully", exception_created := false, ban := deactivatedRow b m now, exception := none }) ∧
        s2.bans = s.bans.map (fun x => if x.id == b.id then deactivatedRow b m now else x) ∧
        s2.exceptions = s.exceptions) := by
  constructor
  · intro s now bid m c org sc reason b hbid hfind hscope hc horg hlen
    have hfb : unbanFindBan s (some bid) none (some c) sc = .ok b := by
      unfold unbanFindBan
      simp [truthyNat, hbid, hfind]
    have hcond : (b.scope == Scope.organization && truthy (some c)) = true := by
      simp [hscope, truthy, hc]
    have hpc : parseCourseKey ((some c).getD "") = .ok c := by
      unfold parseCourseKey
      rw [show (some c).getD "" = c from rfl, horg]
    cases hfe : s.exceptions.filter (fun e => e.ban_id == b.id && e.course_id == c) with
    | nil =>
      unfold unban_user unban_user_tx excGetOrCreate
      rw [hfb]
      dsimp only
      rw [hcond, hpc]
      dsimp only
      rw [hfe]
      refine ⟨_, _, rfl, rfl, rfl, rfl, ?_, ?_⟩
      · simp [hasExceptionFor]
      · intro hex
        exfalso
        obtain ⟨e, he, hpe⟩ := List.any_eq_true.mp hex
        have hmem : e ∈ s.exceptions.filter
            (fun e => e.ban_id == b.id && e.course_id == c) :=
          List.mem_filter.mpr ⟨he, hpe⟩
        rw [hfe] at hmem
        cases hmem
    | cons e0 tail =>
      cases tail with
      | cons e1 t1 =>
        exfalso
        rw [hfe] at hlen
        simp at hlen
      | nil =>
        have hmem : e0 ∈ s.exceptions.filter
            (fun e => e.ban_id == b.id && e.course_id == c) := by
          rw [hfe]
          exact List.mem_singleton_self e0
        have hpe := List.mem_filter.mp hmem
        unfold unban_user unban_user_tx excGetOrCreate
        rw [hfb]
        dsimp only
        rw [hcond, hpc]
        dsimp only
        rw [hfe]
        refine ⟨_, _, rfl, rfl, rfl, rfl, ?_, ?_⟩
        · exact List.any_eq_true.mpr ⟨e0, hpe.1, hpe.2⟩
        · intro _
          rfl
  · intro s now bid m cid sc reason b hbid hfind hcond
    have hfb : unbanFindBan s (some bid) none cid sc = .ok b := by
      unfold unbanFindBan
      simp [truthyNat, hbid, hfind]
    unfold unban_user unban_user_tx
    rw [hfb]
    dsimp only
    rw [hcond]
    exact ⟨_, rfl, rfl, rfl⟩

/-- C4 witnessed: creating the exception for `exCourse2` on the org ban of
`exState` (part 1), and fully unbanning the course-scope ban (part 2). -/
theorem c4_witness :
    (∃ s2 r, unban_user true exState 30 (some 1) none 2 (some exCourse2) none "ok"
        = (s2, .ok r) ∧
      s2.bans = exState.bans ∧
      r.ban = exOrgBan ∧
      r.exception_created = true ∧
      hasExceptionFor s2 exOrgBan.id exCourse2 = true ∧
      (hasExceptionFor exState exOrgBan.id exCourse2 = true →
        s2.exceptions = exState.exceptions)) ∧
    (∃ s2, unban_user true exState 31 (some 2) none 2 none none "done"
        = (s2, .ok { message := "unbanned successfully", exception_created := false, ban := deactivatedRow exCourseBan 2 31, exception := none }) ∧
      s2.bans = exState.bans.map (fun x =>
        if x.id == exCourseBan.id then deactivatedRow exCourseBan 2 31 else x) ∧
      s2.exceptions = exState.exceptions) :=
  ⟨c4_unban_branching.1 exState 30 1 2 exCourse2 "edX" none "ok" exOrgBan
      (by decide) rfl rfl (by decide) rfl (by decide),
   c4_unban_branching.2 exState 31 2 2 none none "done" exCourseBan
      (by decide) rfl rfl⟩

/-! ### Claim C6 -/

/-- For rows of a well-formed store (org-scope rows carry no course id),
the ORed queryset predicate of `get_banned_users`/`get_banned_usernames`
holds exactly of course-scope bans on the course and organization-scope
bans on its derived organization. -/
theorem union_pred_iff (s : DBState) (c org : String)
    (hwf : ∀ b ∈ s.bans, b.scope = Scope.organization → b.course_id = none)
    (b : DiscussionBan) (hmem : b ∈ s.bans) :
    (b.course_id == some c || (b.org_key == some org && b.scope == Scope.organization)) = true
      ↔ ((b.scope = Scope.course ∧ b.course_id = some c) ∨
         (b.scope = Scope.organization ∧ b.org_key = some org)) := by
  simp only [Bool.or_eq_true, Bool.and_eq_true, beq_iff_eq]
  constructor
  · rintro (hcid | ⟨hok, hsc⟩)
    · have hsc2 : b.scope = Scope.course ∨ b.scope = Scope.organization := by
        cases b.scope
        · exact Or.inl rfl
        · exact Or.inr rfl
      rcases hsc2 with hs | hs
      · exact Or.inl ⟨hs, hcid⟩
      · exact absurd hcid (by rw [hwf b hmem hs]; simp)
    · exact Or.inr ⟨hsc, hok⟩
  · rintro (⟨hs, hcid⟩ | ⟨hs, hok⟩)
    · exact Or.inl hcid
    · exact Or.inr ⟨hok, hs⟩

/-- C6: listing bans filtered by a course id with no scope returns exactly
the active bans that either carry that course id (the course-scope bans,
under the row well-formedness that org-scope rows have no course id) OR
are organization-scope bans on the derived organization of the course — the
two predicates ORed, not ANDed — ordered by descending ban timestamp;
`get_banned_usernames` applies the same union for a course id. -/
theorem c6_course_filter_union (s : DBState) (c org : String)
    (hc : c ≠ "") (horg : courseKeyOrg c = some org)
    (hwf : ∀ b ∈ s.bans, b.scope = Scope.organization → b.course_id = none) :
    (∃ out, get_banned_users s (some c) none false none = .ok out ∧
      (∀ b, b ∈ out ↔ b ∈ s.bans ∧ b.is_active = true ∧
        ((b.scope = Scope.course ∧ b.course_id = some c) ∨
         (b.scope = Scope.organization ∧ b.org_key = some org))) ∧
      List.Sorted bannedAtDesc out) ∧
    (∃ uids, get_banned_usernames s (some c) none = .ok uids ∧
      ∀ u2, u2 ∈ uids ↔ ∃ b, b ∈ s.bans ∧ b.is_active = true ∧
        ((b.scope = Scope.course ∧ b.course_id = some c) ∨
         (b.scope = Scope.organization ∧ b.org_key = some org)) ∧ b.user = u2) := by
  have hcb : truthy (some c) = true := by simp [truthy, hc]
  have hpc : parseCourseKey ((some c).getD "") = .ok c := by
    unfold parseCourseKey
    rw [show (some c).getD "" = c from rfl, horg]
  constructor
  · unfold get_banned_users
    rw [hcb]
    dsimp only
    rw [show (if (!false) = true then List.filter (fun b => b.is_active) s.bans
        else s.bans) = List.filter (fun b => b.is_active) s.bans from rfl]
    rw [hpc]
    dsimp only
    rw [horg]
    dsimp only
    refine ⟨_, rfl, ?_, ?_⟩
    · intro b
      rw [List.mem_insertionSort, List.mem_filter, List.mem_filter]
      constructor
      · rintro ⟨⟨hmem, hact⟩, hor⟩
        exact ⟨hmem, hact, (union_pred_iff s c org hwf b hmem).mp hor⟩
      · rintro ⟨hmem, hact, hor⟩
        exact ⟨⟨hmem, hact⟩, (union_pred_iff s c org hwf b hmem).mpr hor⟩
    · exact List.sorted_insertionSort bannedAtDesc _
  · unfold get_banned_usernames
    rw [hcb]
    dsimp only
    rw [hpc]
    dsimp only
    rw [horg]
    dsimp only
    refine ⟨_, rfl, ?_⟩
    intro u2
    rw [List.mem_map]
    constructor
    · rintro ⟨b, hb, hu⟩
      rw [List.mem_filter, List.mem_filter] at hb
      obtain ⟨⟨hmem, hact⟩, hor⟩ := hb
      exact ⟨b, hmem, hact, (union_pred_iff s c org hwf b hmem).mp hor, hu⟩
    · rintro ⟨b, hmem, hact, hor, hu⟩
      refine ⟨b, ?_, hu⟩
      rw [List.mem_filter, List.mem_filter]
      exact ⟨⟨hmem, hact⟩, (union_pred_iff s c org hwf b hmem).mpr hor⟩

/-- C6 witnessed on `exState` (one active course ban on `exCourse`, one
active org ban on `edX`). -/
theorem c6_witness :
    (∃ out, get_banned_users exState (some exCourse) none false none = .ok out ∧
      (∀ b, b ∈ out ↔ b ∈ exState.bans ∧ b.is_active = true ∧
        ((b.scope = Scope.course ∧ b.course_id = some exCourse) ∨
         (b.scope = Scope.organization ∧ b.org_key = some "edX"))) ∧
      List.Sorted bannedAtDesc out) ∧
    (∃ uids, get_banned_usernames exState (some exCourse) none = .ok uids ∧
      ∀ u2, u2 ∈ uids ↔ ∃ b, b ∈ exState.bans ∧ b.is_active = true ∧
        ((b.scope = Scope.course ∧ b.course_id = some exCourse) ∨
         (b.scope = Scope.organization ∧ b.org_key = some "edX")) ∧ b.user = u2) :=
  c6_course_filter_union exState exCourse "edX" (by decide) rfl (by decide)

/-! ### Claim C10 -/

theorem any_congr_pred {α : Type} {p q : α → Bool} (h : ∀ a, p a = q a)
    (l : List α) : l.any p = l.any q := by
  induction l with
  | nil => rfl
  | cons a t ih => simp [h a, ih]

/-- C10: on any store, for a course id whose organization key is derived
by string parsing and agrees between the two parsers (the MySQL fallback
`course_id.org` and the MongoDB split-based extraction), the MySQL class
method and the MongoDB backend method compute the same boolean, for both
values of `check_org`. -/
theorem c10_backend_agreement (s : DBState) (u : UserId) (c org : String)
    (check_org : Bool)
    (h1 : courseKeyOrg c = some org) (h2 : mongoExtractOrg c = some org)
    (hne : org ≠ "") (hc : c ≠ "") :
    DiscussionBan_is_user_banned s u c check_org
      = some (DiscussionBans_is_user_banned s u c check_org) := by
  have hto : truthy (some org) = true := by simp [truthy, hne]
  have htc : truthy (some c) = true := by simp [truthy, hc]
  have hbne : (org != "") = true := by simp [hne]
  have hcne : (c != "") = true := by simp [hc]
  have hfo : mongo_get_active_ban s u none (some org) (some Scope.organization)
      = s.bans.find? (activeOrgBanPred u org) := by
    unfold mongo_get_active_ban
    refine find_congr_pred (fun b => ?_) s.bans
    simp only [activeOrgBanPred, truthy, hbne, eq_self_iff_true, if_true,
      Bool.false_eq_true, if_false]
    cases b.user == u <;> cases b.is_active <;> cases b.scope == Scope.organization <;>
      cases b.org_key == some org <;> rfl
  have hfc : (mongo_get_active_ban s u (some c) none (some Scope.course)).isSome
      = s.bans.any (activeCourseBanPred u c) := by
    unfold mongo_get_active_ban
    rw [find_isSome_eq_any]
    refine any_congr_pred (fun b => ?_) s.bans
    simp only [activeCourseBanPred, truthy, hcne, eq_self_iff_true, if_true,
      Bool.false_eq_true, if_false]
    cases b.user == u <;> cases b.is_active <;> cases b.scope == Scope.course <;>
      cases b.course_id == some c <;> rfl
  unfold DiscussionBan_is_user_banned DiscussionBans_is_user_banned
  rw [h1, h2]
  dsimp only
  rw [hto, Bool.and_true, hfo, hfc]
  cases check_org with
  | false => rfl
  | true =>
    cases hfind : s.bans.find? (activeOrgBanPred u org) with
    | none => rfl
    | some ob =>
      simp only [eq_self_iff_true, if_true]
      have hhe : mongo_has_exception s ob.id c = hasExceptionFor s ob.id c := rfl
      rw [hhe]
      cases hx : hasExceptionFor s ob.id c with
      | false => rfl
      | true => rfl

/-- C10 witnessed on `exState` with the canonical course key, for both
`check_org` values. -/
theorem c10_witness :
    DiscussionBan_is_user_banned exState 7 exCourse true
      = some (DiscussionBans_is_user_banned exState 7 exCourse true) ∧
    DiscussionBan_is_user_banned exState 7 exCourse false
      = some (DiscussionBans_is_user_banned exState 7 exCourse false) :=
  ⟨c10_backend_agreement exState 7 exCourse "edX" true rfl rfl (by decide) (by decide),
   c10_backend_agreement exState 7 exCourse "edX" false rfl rfl (by decide) (by decide)⟩

end ForumBans

